import Mathlib

/-!
Shallow embedding of the BarChart Power BI visual (`src/visual.ts`).

The embedding models JavaScript runtime behaviour explicitly:
* a missing object field or out-of-range array index is `Option.none`
  (JavaScript `undefined`);
* a property access on `undefined` raises a `TypeError`, modelled with
  `Except JsErr`;
* JavaScript truthiness of the values that actually flow through the code
  (arrays, objects, strings, numbers) is modelled at each use site:
  a present array or object is truthy even when empty, a string is falsy
  exactly when empty, a number is falsy exactly when zero.

Host services (colour palette, selection-id builder) are total functions
supplied as a `Host` record, since they are external collaborators.
Category values are modelled as strings and measure values as integers.
-/

/-- A JavaScript runtime error: property access on `undefined`. -/
inductive JsErr where
  | typeError
deriving DecidableEq, Repr

/-- Property access on a possibly-`undefined` value: `x.f` throws when `x`
is `undefined`. -/
def jsGet {α : Type} (x : Option α) : Except JsErr α :=
  match x with
  | some a => Except.ok a
  | none => Except.error JsErr.typeError

/-- A host selection identity.  `ref` is the object reference (distinct
instances have distinct `ref`s, and `===`/`indexOf` compare it); `key` is
the comparison content exposed by `ISelectionId.equals`. -/
structure SelectionId where
  ref : Nat
  key : String
deriving DecidableEq, Repr

/-- One tooltip entry (`VisualTooltipDataItem`): the `value` can hold
`undefined` at runtime when the category value is missing. -/
structure TooltipItem where
  displayName : String
  value : Option String
deriving DecidableEq, Repr

/-- Interface `DataPoint` of `visual.ts`: one bar. -/
structure DataPoint where
  category : Option String
  value : Option Int
  color : String
  selectionId : SelectionId
  highlighted : Bool
  tooltips : List TooltipItem
deriving DecidableEq, Repr

/-- Interface `ViewModel` of `visual.ts`.  `maxValue` is declared `number` but is
assigned `d3.max(...)`, which is `undefined` on an empty list, hence
`Option Int`. -/
structure ViewModel where
  dataPoints : List DataPoint
  maxValue : Option Int
  highlights : Bool
deriving DecidableEq, Repr

/-- Metadata of a data-view column (`source`): its display name. -/
structure ColumnSource where
  displayName : String
deriving DecidableEq, Repr

/-- A row-level formatting object (`DataViewObjects`): resolved fill
colours keyed by (objectName, propertyName). -/
structure DataViewObjects where
  fills : List ((String × String) × String)
deriving DecidableEq, Repr

/-- Helper `dataViewObjects.getFillColor(objects, propertyId, defaultColor)`
from the data-view utils: the stored fill colour when present, else the default. -/
def getFillColor (objs : DataViewObjects) (objectName propertyName : String)
    (defaultColor : Option String) : Option String :=
  match objs.fills.lookup (objectName, propertyName) with
  | some c => some c
  | none => defaultColor

/-- The category column (`DataViewCategoryColumn`): `source` and `objects`
may be absent; an entry of `objects` may itself be absent. -/
structure CategoryColumn where
  source : Option ColumnSource
  values : List (Option String)
  objects : Option (List (Option DataViewObjects))
deriving DecidableEq, Repr

/-- The value column (`DataViewValueColumn`): `highlights` is an optional
array whose entries are numbers or null (`Option Int`). -/
structure ValueColumn where
  source : Option ColumnSource
  values : List (Option Int)
  highlights : Option (List (Option Int))
deriving DecidableEq, Repr

/-- Interface `DataViewCategorical`. -/
structure Categorical where
  categories : Option (List CategoryColumn)
  values : Option (List ValueColumn)
deriving DecidableEq, Repr

/-- Interface `DataView`: only its categorical shape is used by the visual. -/
structure DataView where
  categorical : Option Categorical
deriving DecidableEq, Repr

/-- The host services used by `getViewModel`: `colorPalette.getColor(s).value`
(a deterministic function of the seed string) and
`createSelectionIdBuilder().withCategory(categories, i).createSelectionId()`
(a function of the row index for the fixed category column of one call). -/
structure Host where
  palette : Option String → String
  mkSelId : Nat → SelectionId

/-- Library call `d3.max(dataPoints, d => d.value)` (d3 v3): skips `undefined` entries,
returns `undefined` when no defined entry exists. -/
def d3Max (l : List (Option Int)) : Option Int :=
  match l.filterMap id with
  | [] => none
  | x :: xs => some (xs.foldl max x)

/-- Truthiness test of `highlights ? (highlights[i] ? true : false) : false`:
the array must be present and its i-th entry must be a truthy number. -/
def isHighlighted (hl : Option (List (Option Int))) (i : Nat) : Bool :=
  match hl with
  | none => false
  | some hs =>
    match hs.get? i with
    | some (some x) => x != 0
    | _ => false

/-- Expression `objects && objects[i] && dataViewObjects.getFillColor(objects[i],
{objectName: "dataColor", propertyName: "fill"}, null)`: the per-row
formatting override, `none` when the objects array, the row's entry, or
the stored fill colour is absent (all falsy in the `&&` chain). -/
def overrideAt (objects : Option (List (Option DataViewObjects))) (i : Nat) :
    Option String :=
  match objects with
  | none => none
  | some objs =>
    match objs.get? i with
    | some (some obj) => getFillColor obj "dataColor" "fill" none
    | _ => none

/-- The `||` step: a truthy override wins, any falsy value (absent or the
empty string) falls through to the palette colour keyed by the category. -/
def rowColor (h : Host) (objects : Option (List (Option DataViewObjects)))
    (i : Nat) (cat : Option String) : String :=
  match overrideAt objects i with
  | some c => if c = "" then h.palette cat else c
  | none => h.palette cat

/-- One iteration of the row loop of `getViewModel` (the object literal
pushed at index `i`).  `csrc` is `categories.source`, already known present
because the guard checked it.  The tooltip construction performs the two
accesses that can throw: `values.source.displayName` and
`(values.values[i]).toString()`. -/
def buildRow (h : Host) (csrc : ColumnSource) (c0 : CategoryColumn)
    (v0 : ValueColumn) (i : Nat) : Except JsErr DataPoint := do
  let cat := c0.values.get? i |>.join
  let vsrc ← jsGet v0.source
  let v ← jsGet (v0.values.get? i |>.join)
  Except.ok
    { category := cat
      value := v0.values.get? i |>.join
      color := rowColor h c0.objects i cat
      selectionId := h.mkSelId i
      highlighted := isHighlighted v0.highlights i
      tooltips :=
        [ { displayName := csrc.displayName ++ ":", value := cat },
          { displayName := vsrc.displayName ++ ":", value := some (toString v) } ] }

/-- The row loop: pushes one `DataPoint` per index, in order, aborting at
the first thrown error (the list built so far is discarded by the
throw, as in JavaScript). -/
def buildRows (h : Host) (csrc : ColumnSource) (c0 : CategoryColumn)
    (v0 : ValueColumn) : List Nat → Except JsErr (List DataPoint)
  | [] => Except.ok []
  | i :: is => do
    let dp ← buildRow h csrc c0 v0 i
    let rest ← buildRows h csrc c0 v0 is
    Except.ok (dp :: rest)

/-- The empty view model returned by the early guard. -/
def emptyVM : ViewModel :=
  { dataPoints := [], maxValue := some 0, highlights := false }

/-- Method `Visual.getViewModel`.  The guard clauses are translated in source
order; the two `Except.error` branches are the property accesses the code
performs on a possibly-`undefined` array element:
`categories[0].source` in the guard and `(values[0]).highlights` after it. -/
def getViewModel (h : Host) (dv : Option (List DataView)) : Except JsErr ViewModel :=
  match dv with
  | none => Except.ok emptyVM
  | some dvs =>
  match dvs.get? 0 with
  | none => Except.ok emptyVM
  | some dv0 =>
  match dv0.categorical with
  | none => Except.ok emptyVM
  | some view =>
  match view.categories with
  | none => Except.ok emptyVM
  | some cats =>
  match cats.get? 0 with
  | none => Except.error JsErr.typeError
  | some c0 =>
  match c0.source with
  | none => Except.ok emptyVM
  | some csrc =>
  match view.values with
  | none => Except.ok emptyVM
  | some vals =>
  match vals.get? 0 with
  | none => Except.error JsErr.typeError
  | some v0 =>
    let n := max c0.values.length v0.values.length
    match buildRows h csrc c0 v0 (List.range n) with
    | Except.error e => Except.error e
    | Except.ok dps =>
      Except.ok
        { dataPoints := dps
          maxValue := d3Max (dps.map DataPoint.value)
          highlights := decide (0 < (dps.filter DataPoint.highlighted).length) }

/-- The `xAxis` settings group (`VisualSettings.xAxis`): one persisted
boolean, `show`. -/
structure XAxisSettings where
  «show» : Bool
deriving DecidableEq, Repr

/-- The fixed margins of `Visual` (`private margin = {...}`). -/
structure Margin where
  left : Nat
  right : Nat
  top : Nat
  bottom : Nat
deriving DecidableEq, Repr

/-- Margins `{left: 30, right: 20, top: 40, bottom: 30}`. -/
def visualMargin : Margin :=
  { left := 30, right := 20, top := 40, bottom := 30 }

/-- Line `let xAxisPadding = this.settings.xAxis.show ? this.margin.bottom : 10`. -/
def xAxisPadding (s : XAxisSettings) : Nat :=
  if s.«show» then visualMargin.bottom else 10

/-- Line `let xAxisTextVisible = this.settings.xAxis.show ? "visible" : "hidden"`. -/
def xAxisTextVisible (s : XAxisSettings) : String :=
  if s.«show» then "visible" else "hidden"

/-- The x-axis render step of `update`: `this.xAxisGroup.call(xAxis)` is
performed unconditionally, the group is translated to the baseline
`height - xAxisPadding`, and only the tick-label (`text`) visibility style
depends on the setting. -/
structure XAxisRender where
  axisCalled : Bool
  translateY : Int
  textVisibility : String
deriving DecidableEq, Repr

/-- Lines 153-161 of `visual.ts`. -/
def renderXAxis (s : XAxisSettings) (height : Int) : XAxisRender :=
  { axisCalled := true
    translateY := height - (xAxisPadding s : Int)
    textVisibility := xAxisTextVisible s }

/-- The per-bar fill-opacity set on every render (line 179):
`d => this.viewModel.highlights ? (d.highlighted ? 1.0 : 0.5) : 1.0`. -/
def renderOpacity (vm : ViewModel) (d : DataPoint) : ℚ :=
  if vm.highlights then (if d.highlighted then 1 else 1/2) else 1

/-- The call made by the click handler (line 183):
`this.selectionManager.select(d.selectionId, true)`. -/
structure SelectCall where
  id : SelectionId
  multiSelect : Bool
deriving DecidableEq, Repr

/-- The click handler selects the clicked bar's identity with
multi-select enabled. -/
def clickSelectCall (d : DataPoint) : SelectCall :=
  { id := d.selectionId, multiSelect := true }

/-- Implementation of `Array.prototype.indexOf` on the selection-id list: strict equality
(`===`), i.e. object-reference comparison, returning the first index or
`-1`. -/
def indexOfRefAux (x : SelectionId) : List SelectionId → Nat → Int
  | [], _ => -1
  | y :: ys, j => if y.ref = x.ref then (j : Int) else indexOfRefAux x ys (j + 1)

/-- Call `ids.indexOf(d.selectionId)`. -/
def indexOfRef (ids : List SelectionId) (x : SelectionId) : Int :=
  indexOfRefAux x ids 0

/-- The opacity applied in the `.then` continuation of the click handler
(lines 185-189): `ids.length > 0 ? (d => ids.indexOf(d.selectionId) >= 0 ?
1.0 : 0.5) : 1.0`. -/
def clickOpacity (ids : List SelectionId) (d : DataPoint) : ℚ :=
  if 0 < ids.length then (if 0 ≤ indexOfRef ids d.selectionId then 1 else 1/2) else 1

/-- Accessor used to state claims about the category column actually read
by `getViewModel`: `dataViews[0].categorical.categories[0]`. -/
def catCol (dv : Option (List DataView)) : Option CategoryColumn :=
  ((dv.bind (List.get? · 0)).bind DataView.categorical
    |>.bind Categorical.categories).bind (List.get? · 0)

/-- Accessor: `dataViews[0].categorical.values[0]`. -/
def valCol (dv : Option (List DataView)) : Option ValueColumn :=
  ((dv.bind (List.get? · 0)).bind DataView.categorical
    |>.bind Categorical.values).bind (List.get? · 0)

theorem exceptBind_ok {α β : Type} {x : Except JsErr α} {f : α → Except JsErr β}
    {b : β} (H : (x >>= f) = Except.ok b) : ∃ a, x = Except.ok a ∧ f a = Except.ok b := by
  cases x with
  | ok a => exact ⟨a, rfl, H⟩
  | error e =>
    rw [show ((Except.error e : Except JsErr α) >>= f) = Except.error e from rfl] at H
    exact absurd H (fun hh => Except.noConfusion hh)

theorem jsGet_ok {α : Type} {x : Option α} {a : α}
    (H : jsGet x = Except.ok a) : x = some a := by
  cases x with
  | some b => simpa [jsGet] using H
  | none => simp [jsGet] at H

/-- Shape of every data point successfully pushed by the row loop. -/
theorem buildRow_ok_elim {h : Host} {csrc : ColumnSource} {c0 : CategoryColumn}
    {v0 : ValueColumn} {i : Nat} {dp : DataPoint}
    (H : buildRow h csrc c0 v0 i = Except.ok dp) :
    ∃ vsrc v, v0.source = some vsrc ∧ (v0.values.get? i).join = some v ∧
      dp = { category := (c0.values.get? i).join
             value := some v
             color := rowColor h c0.objects i ((c0.values.get? i).join)
             selectionId := h.mkSelId i
             highlighted := isHighlighted v0.highlights i
             tooltips :=
               [ { displayName := csrc.displayName ++ ":",
                   value := (c0.values.get? i).join },
                 { displayName := vsrc.displayName ++ ":",
                   value := some (toString v) } ] } := by
  unfold buildRow at H
  obtain ⟨vsrc, hsrc, H⟩ := exceptBind_ok H
  obtain ⟨v, hv, H⟩ := exceptBind_ok H
  refine ⟨vsrc, v, jsGet_ok hsrc, jsGet_ok hv, ?_⟩
  simp only [Except.ok.injEq] at H
  rw [← H, jsGet_ok hv]

theorem buildRows_ok_length {h : Host} {csrc : ColumnSource} {c0 : CategoryColumn}
    {v0 : ValueColumn} : ∀ {is : List Nat} {l : List DataPoint},
    buildRows h csrc c0 v0 is = Except.ok l → l.length = is.length := by
  intro is
  induction is with
  | nil =>
    intro l H
    simp only [buildRows, Except.ok.injEq] at H
    rw [← H]
    rfl
  | cons i is ih =>
    intro l H
    unfold buildRows at H
    obtain ⟨dp, _, H⟩ := exceptBind_ok H
    obtain ⟨rest, hrest, H⟩ := exceptBind_ok H
    simp only [Except.ok.injEq] at H
    rw [← H]
    simp [ih hrest]

theorem buildRows_ok_get {h : Host} {csrc : ColumnSource} {c0 : CategoryColumn}
    {v0 : ValueColumn} : ∀ {is : List Nat} {l : List DataPoint},
    buildRows h csrc c0 v0 is = Except.ok l →
    ∀ j i dp, is.get? j = some i → l.get? j = some dp →
      buildRow h csrc c0 v0 i = Except.ok dp := by
  intro is
  induction is with
  | nil => intro l H j i dp hi; simp at hi
  | cons i0 is ih =>
    intro l H j i dp hi hdp
    unfold buildRows at H
    obtain ⟨dp0, hdp0, H⟩ := exceptBind_ok H
    obtain ⟨rest, hrest, H⟩ := exceptBind_ok H
    simp only [Except.ok.injEq] at H
    subst H
    cases j with
    | zero =>
      simp only [List.get?] at hi hdp
      rw [(Option.some.injEq .. ▸ hi : i0 = i)] at hdp0
      rw [(Option.some.injEq .. ▸ hdp : dp0 = dp)] at hdp0
      exact hdp0
    | succ j => exact ih hrest j i dp hi hdp

theorem buildRows_ok_mem {h : Host} {csrc : ColumnSource} {c0 : CategoryColumn}
    {v0 : ValueColumn} {is : List Nat} {l : List DataPoint}
    (H : buildRows h csrc c0 v0 is = Except.ok l) :
    ∀ dp ∈ l, ∃ i ∈ is, buildRow h csrc c0 v0 i = Except.ok dp := by
  intro dp hdp
  obtain ⟨j, hj⟩ := List.mem_iff_get?.mp hdp
  have hjlen : j < l.length := by
    obtain ⟨hl, -⟩ := List.get?_eq_some.mp hj
    exact hl
  have hjis : j < is.length := by rw [← buildRows_ok_length H]; exact hjlen
  have hi : is.get? j = some (is.get ⟨j, hjis⟩) := List.get?_eq_get hjis
  exact ⟨is.get ⟨j, hjis⟩, List.get_mem is j hjis,
    buildRows_ok_get H j (is.get ⟨j, hjis⟩) dp hi hj⟩

/-- Every successful result of `getViewModel` is either the guard's empty
view model or assembled from the first category and value columns by the
row loop. -/
theorem getViewModel_ok_elim {h : Host} {dv : Option (List DataView)} {vm : ViewModel}
    (H : getViewModel h dv = Except.ok vm) :
    vm = emptyVM ∨
    ∃ c0 csrc v0 dps, catCol dv = some c0 ∧ c0.source = some csrc ∧
      valCol dv = some v0 ∧
      buildRows h csrc c0 v0 (List.range (max c0.values.length v0.values.length))
        = Except.ok dps ∧
      vm = { dataPoints := dps
             maxValue := d3Max (dps.map DataPoint.value)
             highlights := decide (0 < (dps.filter DataPoint.highlighted).length) } := by
  cases dv with
  | none =>
    simp only [getViewModel, Except.ok.injEq] at H
    exact Or.inl H.symm
  | some dvs =>
    cases hg0 : dvs.get? 0 with
    | none =>
      simp only [getViewModel, hg0, Except.ok.injEq] at H
      exact Or.inl H.symm
    | some dv0 =>
      cases hc : dv0.categorical with
      | none =>
        simp only [getViewModel, hg0, hc, Except.ok.injEq] at H
        exact Or.inl H.symm
      | some view =>
        cases hcats : view.categories with
        | none =>
          simp only [getViewModel, hg0, hc, hcats, Except.ok.injEq] at H
          exact Or.inl H.symm
        | some cats =>
          cases hc0 : cats.get? 0 with
          | none =>
            simp only [getViewModel, hg0, hc, hcats, hc0] at H
            exact Except.noConfusion H
          | some c0 =>
            cases hsrc : c0.source with
            | none =>
              simp only [getViewModel, hg0, hc, hcats, hc0, hsrc, Except.ok.injEq] at H
              exact Or.inl H.symm
            | some csrc =>
              cases hvals : view.values with
              | none =>
                simp only [getViewModel, hg0, hc, hcats, hc0, hsrc, hvals,
                  Except.ok.injEq] at H
                exact Or.inl H.symm
              | some vals =>
                cases hv0 : vals.get? 0 with
                | none =>
                  simp only [getViewModel, hg0, hc, hcats, hc0, hsrc, hvals, hv0] at H
                  exact Except.noConfusion H
                | some v0 =>
                  cases hb : buildRows h csrc c0 v0
                      (List.range (max c0.values.length v0.values.length)) with
                  | error e =>
                    simp only [getViewModel, hg0, hc, hcats, hc0, hsrc, hvals, hv0,
                      hb] at H
                    exact Except.noConfusion H
                  | ok dps =>
                    simp only [getViewModel, hg0, hc, hcats, hc0, hsrc, hvals, hv0,
                      hb, Except.ok.injEq] at H
                    have hg0g : dvs[0]? = some dv0 := by
                      rw [← List.get?_eq_getElem?]; exact hg0
                    have hc0g : cats[0]? = some c0 := by
                      rw [← List.get?_eq_getElem?]; exact hc0
                    have hv0g : vals[0]? = some v0 := by
                      rw [← List.get?_eq_getElem?]; exact hv0
                    refine Or.inr ⟨c0, csrc, v0, dps, ?_, hsrc, ?_, hb, H.symm⟩
                    · simp [catCol, hg0g, hc, hcats, hc0g]
                    · simp [valCol, hg0g, hc, hcats, hvals, hv0g]

theorem le_foldl_max (x : Int) (xs : List Int) : x ≤ xs.foldl max x := by
  induction xs generalizing x with
  | nil => exact le_refl x
  | cons y ys ih => exact le_trans (le_max_left x y) (ih (max x y))

theorem mem_le_foldl_max (x : Int) (xs : List Int) :
    ∀ y ∈ xs, y ≤ xs.foldl max x := by
  induction xs generalizing x with
  | nil => intro y hy; simp at hy
  | cons z zs ih =>
    intro y hy
    cases List.mem_cons.mp hy with
    | inl he =>
      rw [he, List.foldl_cons]
      exact le_trans (le_max_right x z) (le_foldl_max (max x z) zs)
    | inr hm => exact ih (max x z) y hm

theorem foldl_max_mem (x : Int) (xs : List Int) :
    xs.foldl max x ∈ x :: xs := by
  induction xs generalizing x with
  | nil => simp
  | cons y ys ih =>
    rw [List.foldl_cons]
    rcases List.mem_cons.mp (ih (max x y)) with he | hm
    · rcases max_choice x y with hx | hy
      · rw [he, hx]; exact List.mem_cons_self x (y :: ys)
      · rw [he, hy]; exact List.mem_cons_of_mem x (List.mem_cons_self y ys)
    · exact List.mem_cons_of_mem x (List.mem_cons_of_mem y hm)

/-- Function `d3.max` returns a maximum of the defined entries. -/
theorem d3Max_spec {l : List (Option Int)} {m : Int} (H : d3Max l = some m) :
    some m ∈ l ∧ ∀ x : Int, some x ∈ l → x ≤ m := by
  unfold d3Max at H
  cases hf : l.filterMap id with
  | nil => rw [hf] at H; exact Option.noConfusion H
  | cons x xs =>
    rw [hf] at H
    have hm : m = xs.foldl max x := (Option.some.injEq .. ▸ H).symm
    constructor
    · have : m ∈ x :: xs := hm ▸ foldl_max_mem x xs
      have : m ∈ l.filterMap id := hf ▸ this
      obtain ⟨a, ha, hae⟩ := List.mem_filterMap.mp this
      rw [show a = some m from hae] at ha
      exact ha
    · intro y hy
      have : y ∈ l.filterMap id := List.mem_filterMap.mpr ⟨some y, hy, rfl⟩
      rw [hf] at this
      rcases List.mem_cons.mp this with he | hmem
      · rw [he, hm]; exact le_foldl_max x xs
      · rw [hm]; exact mem_le_foldl_max x xs y hmem

/-- Function `d3.max` is `undefined` only when no entry is defined. -/
theorem d3Max_eq_none {l : List (Option Int)} (H : d3Max l = none) :
    l.filterMap id = [] := by
  unfold d3Max at H
  cases hf : l.filterMap id with
  | nil => rfl
  | cons x xs => rw [hf] at H; exact Option.noConfusion H

/-- Function `d3.max` is defined as soon as some entry is defined. -/
theorem d3Max_isSome {l : List (Option Int)} {x : Int} (hx : some x ∈ l) :
    ∃ m, d3Max l = some m := by
  cases hd : d3Max l with
  | some m => exact ⟨m, rfl⟩
  | none =>
    have hf := d3Max_eq_none hd
    have : x ∈ l.filterMap id := List.mem_filterMap.mpr ⟨some x, hx, rfl⟩
    rw [hf] at this
    simp at this

theorem catCol_some_elim {dv : Option (List DataView)} {c0 : CategoryColumn}
    (H : catCol dv = some c0) :
    ∃ dvs dv0 view cats, dv = some dvs ∧ dvs.get? 0 = some dv0 ∧
      dv0.categorical = some view ∧ view.categories = some cats ∧
      cats.get? 0 = some c0 := by
  unfold catCol at H
  obtain ⟨cats, h4, hc0⟩ := Option.bind_eq_some.mp H
  obtain ⟨view, h3, hcats⟩ := Option.bind_eq_some.mp h4
  obtain ⟨dv0, h2, hview⟩ := Option.bind_eq_some.mp h3
  obtain ⟨dvs, h1, hg0⟩ := Option.bind_eq_some.mp h2
  exact ⟨dvs, dv0, view, cats, h1, hg0, hview, hcats, hc0⟩

/-- When the guard path is fully present, a successful `getViewModel` run
is exactly the row loop over `[0, max(len_cat, len_val))`, followed by the
two aggregate assignments. -/
theorem getViewModel_ok_rows {h : Host} {dv : Option (List DataView)}
    {vm : ViewModel} {c0 : CategoryColumn} {csrc : ColumnSource} {v0 : ValueColumn}
    (H : getViewModel h dv = Except.ok vm)
    (hcat : catCol dv = some c0) (hsrc : c0.source = some csrc)
    (hval : valCol dv = some v0) :
    vm.dataPoints.length = max c0.values.length v0.values.length ∧
    (∀ j dp, vm.dataPoints.get? j = some dp → buildRow h csrc c0 v0 j = Except.ok dp) ∧
    vm.maxValue = d3Max (vm.dataPoints.map DataPoint.value) ∧
    vm.highlights = decide (0 < (vm.dataPoints.filter DataPoint.highlighted).length) := by
  obtain ⟨dvs, dv0, view, cats, h1, hg0, hview, hcats, hc0⟩ := catCol_some_elim hcat
  subst h1
  unfold valCol at hval
  simp only [Option.some_bind] at hval
  rw [hg0] at hval
  simp only [Option.some_bind] at hval
  rw [hview] at hval
  simp only [Option.some_bind] at hval
  obtain ⟨vals, hvals, hv0⟩ := Option.bind_eq_some.mp hval
  rw [getViewModel] at H
  rw [hg0] at H
  simp only [] at H
  rw [hview] at H
  simp only [] at H
  rw [hcats] at H
  simp only [] at H
  rw [hc0] at H
  simp only [] at H
  rw [hsrc] at H
  simp only [] at H
  rw [hvals] at H
  simp only [] at H
  rw [hv0] at H
  simp only [] at H
  cases hb : buildRows h csrc c0 v0
      (List.range (max c0.values.length v0.values.length)) with
  | error e => rw [hb] at H; exact Except.noConfusion H
  | ok dps =>
    rw [hb] at H
    have hvm : vm = { dataPoints := dps
                      maxValue := d3Max (dps.map DataPoint.value)
                      highlights :=
                        decide (0 < (dps.filter DataPoint.highlighted).length) } :=
      (Except.ok.inj H).symm
    subst hvm
    refine ⟨?_, ?_, rfl, rfl⟩
    · simp only []
      rw [buildRows_ok_length hb, List.length_range]
    · intro j dp hdp
      simp only [] at hdp
      have hlen : j < dps.length := by
        obtain ⟨hl, -⟩ := List.get?_eq_some.mp hdp
        exact hl
    
      have hjn : j < max c0.values.length v0.values.length := by
        rw [← List.length_range (max c0.values.length v0.values.length),
          ← buildRows_ok_length hb]
        exact hlen
      exact buildRows_ok_get hb j j dp (List.get?_range hjn) hdp

/-- The derived `highlights` flag (`filter(...).length > 0`) is the
existence of a highlighted point. -/
theorem highlightsFlag_iff (l : List DataPoint) :
    decide (0 < (l.filter DataPoint.highlighted).length) = true ↔
      ∃ dp ∈ l, dp.highlighted = true := by
  rw [decide_eq_true_eq, List.length_pos_iff_exists_mem]
  constructor
  · intro ⟨dp, hdp⟩
    obtain ⟨hmem, hp⟩ := List.mem_filter.mp hdp
    exact ⟨dp, hmem, hp⟩
  · intro ⟨dp, hmem, hp⟩
    exact ⟨dp, List.mem_filter.mpr ⟨hmem, hp⟩⟩

theorem isHighlighted_eq_true {hl : Option (List (Option Int))} {i : Nat} :
    isHighlighted hl i = true ↔
      ∃ hs x, hl = some hs ∧ hs.get? i = some (some x) ∧ x ≠ 0 := by
  cases hl with
  | none => simp [isHighlighted]
  | some hs =>
    cases hg : hs.get? i with
    | none =>
      rw [List.get?_eq_getElem?] at hg
      simp [isHighlighted, hg]
    | some e =>
      rw [List.get?_eq_getElem?] at hg
      cases e with
      | none => simp [isHighlighted, hg]
      | some x => simp [isHighlighted, hg, bne_iff_ne]

/-- Method `indexOf` finds a nonnegative index exactly when some element of the
list is reference-equal to the probe. -/
theorem indexOfRefAux_nonneg_iff (x : SelectionId) :
    ∀ (l : List SelectionId) (j : Nat),
      0 ≤ indexOfRefAux x l j ↔ ∃ s ∈ l, s.ref = x.ref := by
  intro l
  induction l with
  | nil =>
    intro j
    simp [indexOfRefAux]
  | cons y ys ih =>
    intro j
    by_cases hy : y.ref = x.ref
    · simp [indexOfRefAux, hy]
    · simp only [indexOfRefAux, hy, if_false]
      rw [ih (j + 1)]
      constructor
      · intro ⟨s, hs, he⟩
        exact ⟨s, List.mem_cons_of_mem y hs, he⟩
      · intro ⟨s, hs, he⟩
        rcases List.mem_cons.mp hs with hsy | hsm
        · exact absurd (hsy ▸ he) hy
        · exact ⟨s, hsm, he⟩

theorem indexOfRef_nonneg_iff (ids : List SelectionId) (x : SelectionId) :
    0 ≤ indexOfRef ids x ↔ ∃ s ∈ ids, s.ref = x.ref :=
  indexOfRefAux_nonneg_iff x ids 0

/-- Every data point of a successfully built view model carries a defined
numeric value (a missing one would have thrown inside the tooltip). -/
theorem ok_values_defined {h : Host} {dv : Option (List DataView)} {vm : ViewModel}
    (H : getViewModel h dv = Except.ok vm) :
    ∀ dp ∈ vm.dataPoints, ∃ v, dp.value = some v := by
  rcases getViewModel_ok_elim H with he | ⟨c0, csrc, v0, dps, _, _, _, hb, hvm⟩
  · rw [he]
    intro dp hdp
    simp [emptyVM] at hdp
  · rw [hvm]
    intro dp hdp
    obtain ⟨i, -, hrow⟩ := buildRows_ok_mem hb dp hdp
    obtain ⟨vsrc, v, -, -, hdpe⟩ := buildRow_ok_elim hrow
    exact ⟨v, by rw [hdpe]⟩

/-- A concrete host for witnesses: a palette keyed by the seed string and
a selection-id builder issuing instance `i` with key `"row" ++ i`. -/
def host0 : Host :=
  { palette := fun c =>
      match c with
      | some s => "#P" ++ s
      | none => "#PU"
    mkSelId := fun i => { ref := i, key := "row" ++ toString i } }

/-- Category column of the witness data view: A, B, C with a red override
on the first row. -/
def catColGood : CategoryColumn :=
  { source := some { displayName := "Category" }
    values := [some "A", some "B", some "C"]
    objects := some [some { fills := [(("dataColor", "fill"), "#ff0000")] }, none] }

/-- Value column of the witness data view: 3, 1, 2 with the first row
highlighted. -/
def valColGood : ValueColumn :=
  { source := some { displayName := "Value" }
    values := [some 3, some 1, some 2]
    highlights := some [some 1, some 0, none] }

/-- The witness data view. -/
def dvGood : Option (List DataView) :=
  some [{ categorical := some { categories := some [catColGood]
                                values := some [valColGood] } }]

/-- The view model `getViewModel` builds from `dvGood` and `host0`. -/
def vmGood : ViewModel :=
  { dataPoints :=
      [ { category := some "A", value := some 3, color := "#ff0000"
          selectionId := { ref := 0, key := "row0" }, highlighted := true
          tooltips := [ { displayName := "Category:", value := some "A" },
                        { displayName := "Value:", value := some "3" } ] },
        { category := some "B", value := some 1, color := "#PB"
          selectionId := { ref := 1, key := "row1" }, highlighted := false
          tooltips := [ { displayName := "Category:", value := some "B" },
                        { displayName := "Value:", value := some "1" } ] },
        { category := some "C", value := some 2, color := "#PC"
          selectionId := { ref := 2, key := "row2" }, highlighted := false
          tooltips := [ { displayName := "Category:", value := some "C" },
                        { displayName := "Value:", value := some "2" } ] } ]
    maxValue := some 3
    highlights := true }

/-- A data view whose `categories` list is present but empty: the guard
dereferences `categories[0].source` and throws. -/
def dvEmptyCats : Option (List DataView) :=
  some [{ categorical := some { categories := some []
                                values := some [valColGood] } }]

/-- Category column with two rows and no overrides. -/
def catColAB : CategoryColumn :=
  { source := some { displayName := "Category" }
    values := [some "A", some "B"]
    objects := none }

/-- Value column with a single row. -/
def valColOne : ValueColumn :=
  { source := some { displayName := "Value" }
    values := [some 1]
    highlights := none }

/-- Two categories but only one value: row 1 calls `toString()` on an
`undefined` value and throws. -/
def dvMismatch : Option (List DataView) :=
  some [{ categorical := some { categories := some [catColAB]
                                values := some [valColOne] } }]

/-- Category column with a single row and no overrides. -/
def catColA : CategoryColumn :=
  { source := some { displayName := "Category" }
    values := [some "A"]
    objects := none }

/-- Value column with two rows. -/
def valColTwo : ValueColumn :=
  { source := some { displayName := "Value" }
    values := [some 1, some 2]
    highlights := none }

/-- One category but two values: the loop runs to the larger length and
terminates normally, with an `undefined` category on the extra row. -/
def dvMoreVals : Option (List DataView) :=
  some [{ categorical := some { categories := some [catColA]
                                values := some [valColTwo] } }]

/-- Category column holding zero rows. -/
def catColNone : CategoryColumn :=
  { source := some { displayName := "Category" }
    values := []
    objects := none }

/-- Value column holding zero rows. -/
def valColNone : ValueColumn :=
  { source := some { displayName := "Value" }
    values := []
    highlights := none }

/-- A guard-passing data view whose columns hold zero rows: the loop body
never runs and `d3.max` is applied to an empty list. -/
def dvNoRows : Option (List DataView) :=
  some [{ categorical := some { categories := some [catColNone]
                                values := some [valColNone] } }]

instance {e a : Type} [DecidableEq e] [DecidableEq a] : DecidableEq (Except e a)
  | Except.ok x, Except.ok y =>
    if h : x = y then Decidable.isTrue (h ▸ rfl)
    else Decidable.isFalse (fun hh => h (Except.ok.inj hh))
  | Except.ok _, Except.error _ => Decidable.isFalse (fun hh => Except.noConfusion hh)
  | Except.error _, Except.ok _ => Decidable.isFalse (fun hh => Except.noConfusion hh)
  | Except.error x, Except.error y =>
    if h : x = y then Decidable.isTrue (h ▸ rfl)
    else Decidable.isFalse (fun hh => h (Except.error.inj hh))

/-- Categorical shape with the `categories` field absent. -/
def categoricalNoCats : Categorical :=
  { categories := none, values := some [valColGood] }

/-- Data view with no `categories` field. -/
def dvNoCategories : Option (List DataView) :=
  some [{ categorical := some categoricalNoCats }]

/-- Category column with no `source`. -/
def catColNoSource : CategoryColumn :=
  { source := none, values := [some "A"], objects := none }

/-- Categorical shape whose first category column has no `source`. -/
def categoricalNoSource : Categorical :=
  { categories := some [catColNoSource], values := some [valColGood] }

/-- Data view whose category column lacks a `source`. -/
def dvNoSource : Option (List DataView) :=
  some [{ categorical := some categoricalNoSource }]

/-- Categorical shape with the `values` field absent. -/
def categoricalNoValues : Categorical :=
  { categories := some [catColGood], values := none }

/-- Data view with no `values` field. -/
def dvNoValues : Option (List DataView) :=
  some [{ categorical := some categoricalNoValues }]

/-- C1.  The claim says every input whose data view, categorical shape,
category source, or values are absent — explicitly including a data view
whose `categories` list is present but empty — makes `getViewModel`
return the empty view model `{dataPoints: [], maxValue: 0,
highlights: false}` and never raise.  The guard does return the empty
view model for each genuinely absent field, but on a present-but-empty
`categories` list it dereferences `categories[0].source` on an
`undefined` element and throws a TypeError, so the code contradicts the
claimed (and clearly intended) defensive behaviour at that input. -/
theorem C1_guard_empty_viewmodel :
    getViewModel host0 none = Except.ok emptyVM ∧
    getViewModel host0 (some []) = Except.ok emptyVM ∧
    getViewModel host0 (some [{ categorical := none }]) = Except.ok emptyVM ∧
    getViewModel host0 dvNoCategories = Except.ok emptyVM ∧
    getViewModel host0 dvNoSource = Except.ok emptyVM ∧
    getViewModel host0 dvNoValues = Except.ok emptyVM ∧
    emptyVM = { dataPoints := [], maxValue := some 0, highlights := false } ∧
    getViewModel host0 dvEmptyCats = Except.error JsErr.typeError := by
  decide

/-- C2.  The claim says the loop runs to `max(category-count,
value-count)` and terminates normally even when the two counts differ.
When the value count is at least the category count that is what happens
(second conjunct: one category, two values, two data points), but when
the category count exceeds the value count the tooltip construction
calls `.toString()` on an `undefined` value and throws (first
conjunct: two categories, one value). -/
theorem C2_row_count :
    getViewModel host0 dvMismatch = Except.error JsErr.typeError ∧
    Except.map (fun vm => vm.dataPoints.length) (getViewModel host0 dvMoreVals)
      = Except.ok 2 ∧
    max catColA.values.length valColTwo.values.length = 2 := by
  decide

/-- C3 counterexample.  The claim says `maxValue` is 0 whenever
`dataPoints` is empty, including when the guard is passed and the loop
produces zero points.  On a guard-passing data view with zero rows the
code assigns `d3.max([])`, which is `undefined` (`none`), not 0. -/
theorem C3_maxvalue_counterexample :
    getViewModel host0 dvNoRows =
      Except.ok { dataPoints := [], maxValue := none, highlights := false } ∧
    (ViewModel.mk [] none false).maxValue ≠ some 0 := by
  decide

/-- C3 amended.  For every successful run, `maxValue` is the maximum of
the data-point values when `dataPoints` is nonempty; when `dataPoints` is
empty it is 0 on the early-return path but `undefined` (not 0) when the
guard is passed and the loop produces zero points. -/
theorem C3_maxvalue_amended (h : Host) (dv : Option (List DataView)) (vm : ViewModel)
    (H : getViewModel h dv = Except.ok vm) :
    (vm.dataPoints ≠ [] →
      ∃ m, vm.maxValue = some m ∧ (∃ dp ∈ vm.dataPoints, dp.value = some m) ∧
        ∀ dp ∈ vm.dataPoints, ∀ v, dp.value = some v → v ≤ m) ∧
    (vm.dataPoints = [] → vm.maxValue = some 0 ∨ vm.maxValue = none) := by
  have hdef := ok_values_defined H
  rcases getViewModel_ok_elim H with he | ⟨c0, csrc, v0, dps, -, -, -, hb, hvm⟩
  · subst he
    constructor
    · intro hne
      exact absurd rfl hne
    · intro _
      exact Or.inl rfl
  · subst hvm
    simp only [] at hdef ⊢
    constructor
    · intro hne
      obtain ⟨dp0, hdp0⟩ := List.exists_mem_of_ne_nil _ hne
      obtain ⟨v, hv⟩ := hdef dp0 hdp0
      have hmem : some v ∈ dps.map DataPoint.value := by
        rw [← hv]
        exact List.mem_map_of_mem DataPoint.value hdp0
      obtain ⟨m, hm⟩ := d3Max_isSome hmem
      obtain ⟨hmmem, hmub⟩ := d3Max_spec hm
      refine ⟨m, hm, ?_, ?_⟩
      · obtain ⟨dp, hdp, hdpv⟩ := List.mem_map.mp hmmem
        exact ⟨dp, hdp, hdpv⟩
      · intro dp hdp v2 hv2
        exact hmub v2 (hv2 ▸ List.mem_map_of_mem DataPoint.value hdp)
    · intro hnil
      subst hnil
      exact Or.inr rfl

/-- C3 witness: the amended statement evaluated on the concrete data view
with values 3, 1, 2. -/
theorem C3_maxvalue_amended_witness :
    getViewModel host0 dvGood = Except.ok vmGood ∧
    ((vmGood.dataPoints ≠ [] →
      ∃ m, vmGood.maxValue = some m ∧
        (∃ dp ∈ vmGood.dataPoints, dp.value = some m) ∧
        ∀ dp ∈ vmGood.dataPoints, ∀ v, dp.value = some v → v ≤ m) ∧
    (vmGood.dataPoints = [] → vmGood.maxValue = some 0 ∨ vmGood.maxValue = none)) :=
  ⟨by decide, C3_maxvalue_amended host0 dvGood vmGood (by decide)⟩

/-- C4.  For every successful run, the view model's `highlights` flag is
true exactly when some data point is highlighted, and a data point at row
`j` is highlighted exactly when the value column carries a highlight
array whose `j`-th entry is a truthy number. -/
theorem C4_highlights_iff (h : Host) (dv : Option (List DataView)) (vm : ViewModel)
    (H : getViewModel h dv = Except.ok vm) :
    (vm.highlights = true ↔ ∃ dp ∈ vm.dataPoints, dp.highlighted = true) ∧
    (∀ v0, valCol dv = some v0 → ∀ j dp, vm.dataPoints.get? j = some dp →
      (dp.highlighted = true ↔
        ∃ hs x, v0.highlights = some hs ∧ hs.get? j = some (some x) ∧ x ≠ 0)) := by
  rcases getViewModel_ok_elim H with he | ⟨c0, csrc, v0x, dps, hcat, hsrc, hval, hb, hvm⟩
  · subst he
    constructor
    · simp [emptyVM]
    · intro v0 _ j dp hdp
      simp [emptyVM] at hdp
  · constructor
    · rw [hvm]
      exact highlightsFlag_iff dps
    · intro v0 hv0 j dp hdp
      have hv0e : v0x = v0 := Option.some.inj (hval.symm.trans hv0)
      subst hv0e
      obtain ⟨-, hrows, -, -⟩ := getViewModel_ok_rows H hcat hsrc hval
      have hrow := hrows j dp hdp
      obtain ⟨vsrc, v, -, -, hdpe⟩ := buildRow_ok_elim hrow
      have hhl : dp.highlighted = isHighlighted v0x.highlights j := by
        rw [hdpe]
      rw [hhl]
      exact isHighlighted_eq_true

/-- C4 witness: the concrete data view with highlight array
`[1, 0, null]`. -/
theorem C4_highlights_iff_witness :
    getViewModel host0 dvGood = Except.ok vmGood ∧ valCol dvGood = some valColGood ∧
    ((vmGood.highlights = true ↔ ∃ dp ∈ vmGood.dataPoints, dp.highlighted = true) ∧
    (∀ v0, valCol dvGood = some v0 → ∀ j dp, vmGood.dataPoints.get? j = some dp →
      (dp.highlighted = true ↔
        ∃ hs x, v0.highlights = some hs ∧ hs.get? j = some (some x) ∧ x ≠ 0))) :=
  ⟨by decide, by decide, C4_highlights_iff host0 dvGood vmGood (by decide)⟩

/-- C5.  A bar click selects that bar's identity with multi-select
enabled, and the opacity applied to each bar from the resolved selection
list is: with a nonempty list, 1.0 for bars whose identity is found in
the list and 0.5 for the others; with an empty list, 1.0 for every bar. -/
theorem C5_click_selection (d : DataPoint) (ids : List SelectionId) :
    clickSelectCall d = { id := d.selectionId, multiSelect := true } ∧
    (ids = [] → clickOpacity ids d = 1) ∧
    (ids ≠ [] →
      ((∃ s ∈ ids, s.ref = d.selectionId.ref) → clickOpacity ids d = 1) ∧
      ((∀ s ∈ ids, s.ref ≠ d.selectionId.ref) → clickOpacity ids d = 1/2)) := by
  refine ⟨rfl, ?_, ?_⟩
  · intro he
    subst he
    rfl
  · intro hne
    have hlen : 0 < ids.length := List.length_pos.mpr hne
    constructor
    · intro hfound
      have hidx : 0 ≤ indexOfRef ids d.selectionId :=
        (indexOfRef_nonneg_iff ids d.selectionId).mpr hfound
      simp [clickOpacity, hlen, hidx]
    · intro hnone
      have hidx : ¬ 0 ≤ indexOfRef ids d.selectionId := by
        rw [indexOfRef_nonneg_iff]
        intro ⟨s, hs, he⟩
        exact hnone s hs he
      simp [clickOpacity, hlen, hidx]

/-- A concrete highlighted bar used by interaction witnesses. -/
def dpHi : DataPoint :=
  { category := some "A", value := some 3, color := "#ff0000"
    selectionId := { ref := 0, key := "rowA" }, highlighted := true
    tooltips := [] }

/-- A concrete non-highlighted bar used by interaction witnesses. -/
def dpLo : DataPoint :=
  { category := some "B", value := some 1, color := "#PB"
    selectionId := { ref := 1, key := "rowB" }, highlighted := false
    tooltips := [] }

/-- C5 witness: clicking with an empty resolved list resets to 1.0;
with the clicked bar's own identity in the list, it gets 1.0 and a bar
whose identity is not in the list gets 0.5. -/
theorem C5_click_selection_witness :
    clickSelectCall dpHi = { id := dpHi.selectionId, multiSelect := true } ∧
    clickOpacity [] dpHi = 1 ∧
    clickOpacity [dpHi.selectionId] dpHi = 1 ∧
    clickOpacity [dpHi.selectionId] dpLo = 1/2 :=
  ⟨(C5_click_selection dpHi []).1,
   (C5_click_selection dpHi []).2.1 rfl,
   ((C5_click_selection dpHi [dpHi.selectionId]).2.2 (by decide)).1
     ⟨dpHi.selectionId, by decide⟩,
   ((C5_click_selection dpLo [dpHi.selectionId]).2.2 (by decide)).2
     (by decide)⟩

/-- C6.  On every render, bars get fill-opacity 1.0 when the view model's
`highlights` flag is false; when it is true, highlighted bars get 1.0 and
non-highlighted bars get 0.5. -/
theorem C6_render_opacity (vm : ViewModel) (d : DataPoint) :
    (vm.highlights = false → renderOpacity vm d = 1) ∧
    (vm.highlights = true →
      (d.highlighted = true → renderOpacity vm d = 1) ∧
      (d.highlighted = false → renderOpacity vm d = 1/2)) := by
  constructor
  · intro hf
    simp [renderOpacity, hf]
  · intro ht
    constructor
    · intro hd
      simp [renderOpacity, ht, hd]
    · intro hd
      simp [renderOpacity, ht, hd]

/-- C6 witness: with highlighting active, the highlighted bar renders at
1.0 and the non-highlighted one at 0.5; with it inactive both render at
1.0. -/
theorem C6_render_opacity_witness :
    renderOpacity vmGood dpHi = 1 ∧
    renderOpacity vmGood dpLo = 1/2 ∧
    renderOpacity emptyVM dpLo = 1 :=
  ⟨((C6_render_opacity vmGood dpHi).2 rfl).1 rfl,
   ((C6_render_opacity vmGood dpLo).2 rfl).2 rfl,
   (C6_render_opacity emptyVM dpLo).1 rfl⟩

/-- C7.  On every update, `xAxisPadding` is the 30-pixel bottom margin
when `xAxis.show` is true and 10 when it is false; with the setting off,
the bottom-axis tick text is set to hidden while the axis group itself is
still rendered (`call(xAxis)` happens unconditionally and only the text
visibility style is toggled). -/
theorem C7_xaxis_padding (s : XAxisSettings) (height : Int) :
    (s.«show» = true →
      xAxisPadding s = visualMargin.bottom ∧ xAxisPadding s = 30 ∧
      (renderXAxis s height).textVisibility = "visible") ∧
    (s.«show» = false →
      xAxisPadding s = 10 ∧ (renderXAxis s height).textVisibility = "hidden") ∧
    (renderXAxis s height).axisCalled = true ∧
    (renderXAxis s height).translateY = height - xAxisPadding s := by
  refine ⟨?_, ?_, rfl, rfl⟩
  · intro ht
    exact ⟨by simp [xAxisPadding, ht], by simp [xAxisPadding, ht, visualMargin],
      by simp [renderXAxis, xAxisTextVisible, ht]⟩
  · intro hf
    exact ⟨by simp [xAxisPadding, hf], by simp [renderXAxis, xAxisTextVisible, hf]⟩

/-- C7 witness: both positions of the `show` flag at a concrete height. -/
theorem C7_xaxis_padding_witness :
    xAxisPadding { «show» := false } = 10 ∧
    (renderXAxis { «show» := false } 200).textVisibility = "hidden" ∧
    (renderXAxis { «show» := false } 200).axisCalled = true ∧
    xAxisPadding { «show» := true } = 30 :=
  ⟨((C7_xaxis_padding { «show» := false } 200).2.1 rfl).1,
   ((C7_xaxis_padding { «show» := false } 200).2.1 rfl).2,
   (C7_xaxis_padding { «show» := false } 200).2.2.1,
   ((C7_xaxis_padding { «show» := true } 200).1 rfl).2.1⟩

/-- C8.  Every data point of a successful run carries exactly two tooltip
entries: the category field's display name followed by ":" with the row's
category as value, and the value field's display name followed by ":"
with the row's value rendered by `toString()`. -/
theorem C8_tooltips (h : Host) (dv : Option (List DataView)) (vm : ViewModel)
    (c0 : CategoryColumn) (csrc : ColumnSource) (v0 : ValueColumn) (vsrc : ColumnSource)
    (H : getViewModel h dv = Except.ok vm)
    (hcat : catCol dv = some c0) (hcsrc : c0.source = some csrc)
    (hval : valCol dv = some v0) (hvsrc : v0.source = some vsrc) :
    ∀ j dp, vm.dataPoints.get? j = some dp →
      ∃ v, (v0.values.get? j).join = some v ∧
        dp.category = (c0.values.get? j).join ∧ dp.value = some v ∧
        dp.tooltips =
          [ { displayName := csrc.displayName ++ ":"
              value := (c0.values.get? j).join },
            { displayName := vsrc.displayName ++ ":"
              value := some (toString v) } ] := by
  intro j dp hdp
  obtain ⟨-, hrows, -, -⟩ := getViewModel_ok_rows H hcat hcsrc hval
  have hrow := hrows j dp hdp
  obtain ⟨vsrc2, v, hvsrc2, hv, hdpe⟩ := buildRow_ok_elim hrow
  have hvsrce : vsrc2 = vsrc := Option.some.inj (hvsrc2.symm.trans hvsrc)
  subst hvsrce
  exact ⟨v, hv, by rw [hdpe], by rw [hdpe], by rw [hdpe]⟩

/-- C8 witness: the three rows of the concrete data view each carry the
two expected tooltip entries. -/
theorem C8_tooltips_witness :
    getViewModel host0 dvGood = Except.ok vmGood ∧
    (∀ j dp, vmGood.dataPoints.get? j = some dp →
      ∃ v, (valColGood.values.get? j).join = some v ∧
        dp.category = (catColGood.values.get? j).join ∧ dp.value = some v ∧
        dp.tooltips =
          [ { displayName := "Category" ++ ":"
              value := (catColGood.values.get? j).join },
            { displayName := "Value" ++ ":"
              value := some (toString v) } ]) :=
  ⟨by decide,
   C8_tooltips host0 dvGood vmGood catColGood { displayName := "Category" }
     valColGood { displayName := "Value" } (by decide) (by decide) (by decide)
     (by decide) (by decide)⟩

/-- C9.  A row's colour is the per-row override when the row-level style
object is present and stores a truthy fill colour under the fixed
("dataColor", "fill") key pair, and otherwise is the palette colour keyed
by the row's category, so rows with the same category that fall back to
the palette receive the same colour. -/
theorem C9_row_color (h : Host) (dv : Option (List DataView)) (vm : ViewModel)
    (c0 : CategoryColumn)
    (H : getViewModel h dv = Except.ok vm) (hcat : catCol dv = some c0) :
    (∀ j dp, vm.dataPoints.get? j = some dp →
      dp.category = (c0.values.get? j).join ∧
      (∀ objs obj c, c0.objects = some objs → objs.get? j = some (some obj) →
        getFillColor obj "dataColor" "fill" none = some c → c ≠ "" →
        dp.color = c) ∧
      ((overrideAt c0.objects j = none ∨ overrideAt c0.objects j = some "") →
        dp.color = h.palette ((c0.values.get? j).join))) ∧
    (∀ j1 dp1 j2 dp2, vm.dataPoints.get? j1 = some dp1 →
      vm.dataPoints.get? j2 = some dp2 →
      (overrideAt c0.objects j1 = none ∨ overrideAt c0.objects j1 = some "") →
      (overrideAt c0.objects j2 = none ∨ overrideAt c0.objects j2 = some "") →
      dp1.category = dp2.category → dp1.color = dp2.color) := by
  have hmain : ∀ j dp, vm.dataPoints.get? j = some dp →
      dp.category = (c0.values.get? j).join ∧
      (∀ objs obj c, c0.objects = some objs → objs.get? j = some (some obj) →
        getFillColor obj "dataColor" "fill" none = some c → c ≠ "" →
        dp.color = c) ∧
      ((overrideAt c0.objects j = none ∨ overrideAt c0.objects j = some "") →
        dp.color = h.palette ((c0.values.get? j).join)) := by
    rcases getViewModel_ok_elim H with he | ⟨c0x, csrc, v0, dps, hcatx, hsrc, hval, hb, hvm⟩
    · intro j dp hdp
      rw [he] at hdp
      simp [emptyVM] at hdp
    · have hc0e : c0 = c0x := Option.some.inj (hcat.symm.trans hcatx)
      subst hc0e
      intro j dp hdp
      obtain ⟨-, hrows, -, -⟩ := getViewModel_ok_rows H hcat hsrc hval
      have hrow := hrows j dp hdp
      obtain ⟨vsrc2, v, -, -, hdpe⟩ := buildRow_ok_elim hrow
      refine ⟨by rw [hdpe], ?_, ?_⟩
      · intro objs obj c hobjs hobj hfill hcne
        have hov : overrideAt c0.objects j = some c := by
          rw [List.get?_eq_getElem?] at hobj
          simp [overrideAt, hobjs, hobj, hfill]
        rw [hdpe]
        simp [rowColor, hov, hcne]
      · intro hov
        rw [hdpe]
        rcases hov with hnone | hempty
        · simp [rowColor, hnone]
        · simp [rowColor, hempty]
  refine ⟨hmain, ?_⟩
  intro j1 dp1 j2 dp2 hdp1 hdp2 hov1 hov2 hcateq
  obtain ⟨hcat1, -, hpal1⟩ := hmain j1 dp1 hdp1
  obtain ⟨hcat2, -, hpal2⟩ := hmain j2 dp2 hdp2
  rw [hpal1 hov1, hpal2 hov2, ← hcat1, ← hcat2, hcateq]

/-- The first data point `getViewModel` builds from `dvGood`. -/
def vmGoodDp0 : DataPoint :=
  { category := some "A", value := some 3, color := "#ff0000"
    selectionId := { ref := 0, key := "row0" }, highlighted := true
    tooltips := [ { displayName := "Category:", value := some "A" },
                  { displayName := "Value:", value := some "3" } ] }

/-- The second data point `getViewModel` builds from `dvGood`. -/
def vmGoodDp1 : DataPoint :=
  { category := some "B", value := some 1, color := "#PB"
    selectionId := { ref := 1, key := "row1" }, highlighted := false
    tooltips := [ { displayName := "Category:", value := some "B" },
                  { displayName := "Value:", value := some "1" } ] }

/-- The row-0 style object of `catColGood`. -/
def objGood : DataViewObjects :=
  { fills := [(("dataColor", "fill"), "#ff0000")] }

/-- C9 witness: row 0 of the concrete data view carries the override
colour and row 1 falls back to the palette keyed by its category. -/
theorem C9_row_color_witness :
    getViewModel host0 dvGood = Except.ok vmGood ∧
    vmGood.dataPoints.get? 0 = some vmGoodDp0 ∧ vmGoodDp0.color = "#ff0000" ∧
    vmGood.dataPoints.get? 1 = some vmGoodDp1 ∧
    vmGoodDp1.color = host0.palette (some "B") :=
  ⟨by decide, by decide,
   ((C9_row_color host0 dvGood vmGood catColGood (by decide) (by decide)).1
      0 vmGoodDp0 (by decide)).2.1
      [some objGood, none] objGood "#ff0000"
      (by decide) (by decide) (by decide) (by decide),
   by decide,
   by
     have hx := ((C9_row_color host0 dvGood vmGood catColGood (by decide)
       (by decide)).1 1 vmGoodDp1 (by decide)).2.2 (by decide)
     simpa [catColGood] using hx⟩

/-- C10.  After a click resolves with a nonempty selection list, a bar
gets opacity 1.0 exactly when the list contains an identity that is
reference-equal (`===`, as used by `indexOf`) to the bar's own
`selectionId`; an identity that matches only by comparison content but is
a distinct instance leaves the bar at 0.5. -/
theorem C10_indexof_reference (d : DataPoint) (ids : List SelectionId)
    (hne : ids ≠ []) :
    (clickOpacity ids d = 1 ↔ ∃ s ∈ ids, s.ref = d.selectionId.ref) ∧
    ((∃ s ∈ ids, s.key = d.selectionId.key) →
      (∀ s ∈ ids, s.ref ≠ d.selectionId.ref) → clickOpacity ids d = 1/2) := by
  have hlen : 0 < ids.length := List.length_pos.mpr hne
  have hiff := indexOfRef_nonneg_iff ids d.selectionId
  constructor
  · constructor
    · intro h1
      by_contra hno
      have hidx : ¬ 0 ≤ indexOfRef ids d.selectionId := fun hx => hno (hiff.mp hx)
      rw [clickOpacity, if_pos hlen, if_neg hidx] at h1
      norm_num at h1
    · intro hex
      have hidx := hiff.mpr hex
      rw [clickOpacity, if_pos hlen, if_pos hidx]
  · intro hkey hrefs
    have hidx : ¬ 0 ≤ indexOfRef ids d.selectionId := by
      rw [hiff]
      intro ⟨s, hs, he⟩
      exact hrefs s hs he
    rw [clickOpacity, if_pos hlen, if_neg hidx]

/-- The clicked bar's own identity instance. -/
def selBbar : SelectionId := { ref := 20, key := "catB" }

/-- An identity returned by the selection manager that is equal to
`selBbar` by comparison content but is a distinct instance. -/
def selBret : SelectionId := { ref := 21, key := "catB" }

/-- A bar holding `selBbar`. -/
def dpBbar : DataPoint :=
  { category := some "B", value := some 1, color := "#PB"
    selectionId := selBbar, highlighted := false, tooltips := [] }

/-- C10 witness: the returned list holds a distinct instance with the
same comparison key, so the bar stays at 0.5 even though the identity is
equal-by-comparison. -/
theorem C10_indexof_reference_witness :
    (clickOpacity [selBret] dpBbar = 1 ↔
      ∃ s ∈ [selBret], s.ref = dpBbar.selectionId.ref) ∧
    selBret.key = dpBbar.selectionId.key ∧ selBret.ref ≠ dpBbar.selectionId.ref ∧
    clickOpacity [selBret] dpBbar = 1/2 :=
  ⟨(C10_indexof_reference dpBbar [selBret] (by decide)).1,
   by decide, by decide,
   (C10_indexof_reference dpBbar [selBret] (by decide)).2
     ⟨selBret, by decide, by decide⟩ (by decide)⟩
